import Mathlib

/-
Verification of the client-side fetch/cache/retry/poll controller of the
react19 demo repository.  The embedding models, from the source:

* `fetchPokemon` — one execution of the retry-carrying fetch function of
  `usePokemonQuery` (README `React19Page`), together with `fetchPokemonChain`,
  the sequential chain of attempts driven by the 1000ms `setTimeout` retries;
* `fetchWithCache` — the staleness cache with its module-level `Map`, the
  `STALE_TIME` freshness test and the `GC_TIME` deletion timer, wrapped in a
  timed-event semantics (`stepEv`/`runEvents`) in which every scheduled
  `setTimeout` fires at its scheduled time;
* `pollFireTimes` / `pollFireTimesBefore19` — the invocation times of the two
  polling effects (`setInterval(fetchData, 5000)` with `clearInterval` on
  stop; the `ReactBefore19Page` variant additionally calls `fetchData()`
  immediately on start);
* `favoriteMutation` / `nicknameMutation` — one full round-trip of the
  optimistic mutations of the react-query page (`onMutate` snapshot and
  optimistic write, then either success or `onError` rollback plus `alert`).
-/

namespace React19Demo

/-! ## Retry policy (README React19Page, `usePokemonQuery.fetchPokemon`) -/

/-- The state held by `usePokemonQuery`: the record, the terminal error, the
displayed failure count and the two loading flags. -/
structure FetchState where
  pokemon : Option Nat
  error : Option String
  failureCount : Nat
  isLoading : Bool
  isFetching : Bool
deriving DecidableEq

/-- Initial hook state: no record, no error, zero failures, flags down. -/
def initialFetchState : FetchState :=
  { pokemon := none, error := none, failureCount := 0
    isLoading := false, isFetching := false }

/-- One execution of `fetchPokemon(retry)` with the given underlying attempt
outcome.  Mirrors the source: on success the record is stored, the error
cleared and the failure count reset (inside a transition, which only defers
the commit); on failure with `retry < retryCount` a retry is scheduled with
`setTimeout(() => fetchPokemon(retry + 1), 1000)` and `failureCount` is set to
`retry + 1` without touching `error`; otherwise `setError(err)` makes the
error terminal.  The `finally` block lowers both flags in every case.  The
second component is the scheduled retry, as `(next retry index, delay ms)`. -/
def fetchPokemon (retryCount : Nat) (s : FetchState) (retry : Nat)
    (outcome : Except String Nat) : FetchState × Option (Nat × Nat) :=
  match outcome with
  | .ok d =>
      ({ s with pokemon := some d, error := none, failureCount := 0
                isLoading := false, isFetching := false }, none)
  | .error m =>
      if retry < retryCount then
        ({ s with failureCount := retry + 1
                  isLoading := false, isFetching := false }, some (retry + 1, 1000))
      else
        ({ s with error := some m
                  isLoading := false, isFetching := false }, none)

/-- The chain of sequential attempts of one fetch invocation: each element of
the list is the outcome the environment would give to the next underlying
attempt.  The chain follows scheduled retries and stops when none is
scheduled; it returns the final state and the number of attempts actually
executed. -/
def fetchPokemonChain (retryCount : Nat) (s : FetchState) (retry : Nat) :
    List (Except String Nat) → FetchState × Nat
  | [] => (s, 0)
  | o :: rest =>
      match fetchPokemon retryCount s retry o with
      | (s1, none) => (s1, 1)
      | (s1, some (r1, _)) =>
          let t := fetchPokemonChain retryCount s1 r1 rest
          (t.1, t.2 + 1)

/-! ## Staleness cache (README, `fetchWithCache`) -/

/-- `STALE_TIME = 10000` (10 s), from the source. -/
def STALE_TIME : Int := 10000

/-- `GC_TIME = 5 * 60 * 1000` (5 min), from the source. -/
def GC_TIME : Int := 300000

/-- The module-level cache `Map` (one entry per key: value and `timestamp`)
together with the pending `setTimeout` GC timers `(fire time, key)` created by
`fetchWithCache`. -/
structure CacheState where
  entries : List (String × Nat × Int)
  timers : List (Int × String)
deriving DecidableEq

/-- The empty cache with no pending timers. -/
def emptyCache : CacheState := { entries := [], timers := [] }

/-- `cache.get(key)`. -/
def lookupEntry (s : CacheState) (k : String) : Option (Nat × Int) :=
  (s.entries.find? (fun e => e.1 == k)).map (fun e => e.2)

/-- `cache.set(key, { data, timestamp: now })` followed by scheduling
`setTimeout(() => cache.delete(key), GC_TIME)`: the entry replaces any
existing entry for the key, and the new timer is added without cancelling any
earlier one. -/
def cacheStore (s : CacheState) (k : String) (d : Nat) (now : Int) : CacheState :=
  { entries := (k, d, now) :: s.entries.filter (fun e => e.1 != k)
    timers := (now + GC_TIME, k) :: s.timers }

/-- One call `fetchWithCache(key, fetcher)` at time `now`.  `loaderRes` is
what `fetcher()` would produce if invoked.  Mirrors the source: if a cached
entry exists and `now - cached.timestamp < STALE_TIME` the cached value is
returned with no loader call; otherwise the loader runs and on success the
value is stored and the GC deletion scheduled, while on failure the error is
rethrown and nothing is cached.  Returns (result, whether the loader was
invoked, new cache state). -/
def fetchWithCache (s : CacheState) (now : Int) (k : String)
    (loaderRes : Except String Nat) : Except String Nat × Bool × CacheState :=
  match lookupEntry s k with
  | some (v, ts) =>
      if now - ts < STALE_TIME then (.ok v, false, s)
      else
        match loaderRes with
        | .ok d => (.ok d, true, cacheStore s k d now)
        | .error e => (.error e, true, s)
  | none =>
      match loaderRes with
      | .ok d => (.ok d, true, cacheStore s k d now)
      | .error e => (.error e, true, s)

/-- Whether the cache holds a fresh entry for `k` at time `now` (the branch
condition of `fetchWithCache`). -/
def isFresh (s : CacheState) (k : String) (now : Int) : Bool :=
  match lookupEntry s k with
  | some (_, ts) => decide (now - ts < STALE_TIME)
  | none => false

deriving instance DecidableEq for Except

/-- An event of the cache's timed semantics: a `fetchWithCache` call for a
key (with the outcome its loader would produce), or the firing of a scheduled
GC deletion `cache.delete(key)`. -/
inductive CacheEv where
  | get (key : String) (loaderRes : Except String Nat)
  | gcFire (key : String)
deriving DecidableEq

/-- An event together with the time at which it happens. -/
structure TimedEv where
  time : Int
  ev : CacheEv
deriving DecidableEq

/-- Whether an event is a `fetchWithCache` call for key `k`. -/
def isGetOf (k : String) (e : TimedEv) : Bool :=
  match e.ev with
  | .get k2 _ => k2 == k
  | .gcFire _ => false

/-- Processing one timed event.  A `get` runs `fetchWithCache` at the event's
time.  A `gcFire` is the firing of a pending timer: it removes the timer and
executes `cache.delete(key)`, deleting whatever entry is then stored under
the key (the callback only closes over the key, not the entry); a `gcFire`
with no matching pending timer does nothing. -/
def stepEv (s : CacheState) (e : TimedEv) : CacheState :=
  match e.ev with
  | .get k res => (fetchWithCache s e.time k res).2.2
  | .gcFire k =>
      if (e.time, k) ∈ s.timers then
        { entries := s.entries.filter (fun en => en.1 != k)
          timers := s.timers.erase (e.time, k) }
      else s

/-- Processing a list of timed events in order. -/
def runEvents (s : CacheState) : List TimedEv → CacheState
  | [] => s
  | e :: rest => runEvents (stepEv s e) rest

/-! ## Poll drivers -/

/-- The times at which `setInterval(fetchData, interval)` started at `t0`
invokes the fetch before `clearInterval` runs at `tStop`: the firings
`t0 + k * interval` for `k ≥ 1` that happen before the stop; `clearInterval`
cancels every later firing.  This is the polling effect of the README
`React19Page` and of `startPolling` in `src/app/react19/page.tsx`, neither of
which fetches at start time. -/
def pollFireTimes (t0 interval tStop : Nat) : List Nat :=
  ((List.range tStop).filter
      (fun k => decide (0 < k ∧ t0 + k * interval < tStop))).map
    (fun k => t0 + k * interval)

/-- The invocation times of the `ReactBefore19Page` polling effect: it calls
`fetchData()` synchronously when polling starts and then sets the same
interval. -/
def pollFireTimesBefore19 (t0 interval tStop : Nat) : List Nat :=
  t0 :: pollFireTimes t0 interval tStop

/-! ## Optimistic mutations (react-query page) -/

/-- A JavaScript object with the `Pokemon` fields, each possibly absent: the
spread `{ ...old!, patch }` with `old === undefined` produces an object whose
only present field is the patched one, so partial objects are representable
states of the query cache. -/
structure PokemonObj where
  id : Option Int
  name : Option String
  sprite : Option String
  types : Option (List String)
  isFavorite : Option Bool
  nickname : Option String
deriving DecidableEq

/-- The object produced by spreading `undefined`: every field absent. -/
def emptyPokemonObj : PokemonObj :=
  { id := none, name := none, sprite := none, types := none
    isFavorite := none, nickname := none }

/-- `(old) => ({ ...old!, isFavorite })`: spread of the current data (or of
`undefined` when there is none) with the favorite flag overwritten. -/
def spreadWithFavorite (old : Option PokemonObj) (v : Bool) : PokemonObj :=
  { old.getD emptyPokemonObj with isFavorite := some v }

/-- `(old) => ({ ...old!, nickname })`. -/
def spreadWithNickname (old : Option PokemonObj) (n : String) : PokemonObj :=
  { old.getD emptyPokemonObj with nickname := some n }

/-- The client-visible state of the react-query page: the query cache entry
under `["pokemon"]`, the query's own error field (owned by `useQuery`), and
the one-shot `alert` notices issued so far. -/
structure ClientState where
  queryData : Option PokemonObj
  queryError : Option String
  alerts : List String
deriving DecidableEq

/-- `queryClient.setQueryData(key, v)` per the query library's documented
contract: passing `undefined` leaves the cached data unchanged; passing a
value replaces it. -/
def setQueryData (store upd : Option PokemonObj) : Option PokemonObj :=
  match upd with
  | none => store
  | some p => some p

/-- One full round-trip of `favoriteMutation.mutate({ isFavorite })` with the
error mode `shouldFail`.  `onMutate` snapshots `previousPokemon` and writes
the optimistic record `{ ...old!, isFavorite }`; on success the mutation
keeps the patched state (no success handler); on failure `onError` restores
the snapshot only under the guard `if (context?.previousPokemon)` and then
issues the alert. -/
def favoriteMutation (s : ClientState) (isFavorite : Bool) (shouldFail : Bool) :
    ClientState :=
  let previousPokemon := s.queryData
  let s1 : ClientState :=
    { s with queryData := some (spreadWithFavorite s.queryData isFavorite) }
  if shouldFail then
    let s2 : ClientState :=
      match previousPokemon with
      | some p => { s1 with queryData := some p }
      | none => s1
    { s2 with alerts := s2.alerts ++ ["즐겨찾기 처리에 실패했습니다!"] }
  else
    s1

/-- One full round-trip of `nicknameMutation.mutate(nickname)`: same shape,
except `onError` calls `setQueryData(["pokemon"], context?.previousPokemon)`
unconditionally. -/
def nicknameMutation (s : ClientState) (nickname : String) (shouldFail : Bool) :
    ClientState :=
  let previousPokemon := s.queryData
  let s1 : ClientState :=
    { s with queryData := some (spreadWithNickname s.queryData nickname) }
  if shouldFail then
    { s1 with queryData := setQueryData s1.queryData previousPokemon
              alerts := s1.alerts ++ ["닉네임 설정에 실패했습니다!"] }
  else
    s1

/-! ## Sample inputs used by witnesses -/

/-- A fully populated record, as returned by a successful query. -/
def samplePokemon : PokemonObj :=
  { id := some 25, name := some "pikachu", sprite := some "sprite-url"
    types := some ["electric"], isFavorite := some false, nickname := none }

/-- A client state holding `samplePokemon` with no query error and no alerts. -/
def sampleClient : ClientState :=
  { queryData := some samplePokemon, queryError := none, alerts := [] }

/-- A cache holding one entry for `"pokemon-1"` fetched at time 0, with its
GC timer pending. -/
def sampleCache : CacheState :=
  { entries := [("pokemon-1", 5, 0)], timers := [(300000, "pokemon-1")] }

/-! ## The stale-closure retry variant (`src/app/react19/page.tsx`) -/

/-- The state of the `React19` page component: the record, the error and the
rendered `retryCount` state.  The transition's `isPending` flag is owned by
the framework and not modelled. -/
structure React19State where
  pokemon : Option Nat
  error : Option String
  retryCount : Nat
deriving DecidableEq

/-- Initial component state: no record, no error, zero retry count. -/
def initialReact19State : React19State :=
  { pokemon := none, error := none, retryCount := 0 }

/-- One execution of the page's `fetchData` with the given underlying attempt
outcome.  `closureRetryCount` is the value of `retryCount` closed over by
this `fetchData` closure — the state value of the render that created it, not
the current state: the `catch` reads this stale value.  The body first runs
`setRetryCount(0)`; on failure with `closureRetryCount < 3` it runs
`setRetryCount(prev => prev + 1)` (applied to the freshly reset state, so the
rendered count becomes 1) and schedules `setTimeout(fetchData, 1000)` — the
very same closure, carrying the same closed-over count; otherwise
`setError(err)` runs.  The boolean reports whether a retry was scheduled. -/
def fetchData (closureRetryCount : Nat) (s : React19State)
    (outcome : Except String Nat) : React19State × Bool :=
  let s0 : React19State := { s with retryCount := 0 }
  match outcome with
  | .ok d => ({ s0 with pokemon := some d, error := none }, false)
  | .error m =>
      if closureRetryCount < 3 then
        ({ s0 with retryCount := 1 }, true)
      else
        ({ s0 with error := some m }, false)

/-- The chain of attempts driven by the `setTimeout` retries of `fetchData`:
every scheduled retry re-invokes the same closure, so the closed-over count
is constant along the chain.  Returns the final state and the number of
attempts executed. -/
def fetchDataChain (closureRetryCount : Nat) (s : React19State) :
    List (Except String Nat) → React19State × Nat
  | [] => (s, 0)
  | o :: rest =>
      match fetchData closureRetryCount s o with
      | (s1, false) => (s1, 1)
      | (s1, true) =>
          let t := fetchDataChain closureRetryCount s1 rest
          (t.1, t.2 + 1)

/-! ## The README mutation hook (`usePokemonMutation`) -/

/-- The state of the README `React19Page`: the base record owned by
`usePokemonQuery` (`useOptimistic` derives the transient optimistic view from
it and reverts to it when the transition settles), the query's error field,
and the mutation hook's own error state (the `useState` inside
`usePokemonMutation`). -/
structure React19PageState where
  pokemon : Option PokemonObj
  queryError : Option String
  mutationError : Option String
deriving DecidableEq

/-- One round-trip of the README favorite mutation through
`usePokemonMutation`: on failure the `catch` only stores the error in the
hook's own error state — no alert is issued and the base record is untouched
(the optimistic patch lives in `useOptimistic` and reverts when the
transition settles); on success `onSuccess` merges the returned
`{ isFavorite }` into the record when one exists. -/
def favoriteMutationReadme (s : React19PageState) (v : Bool)
    (shouldFail : Bool) : React19PageState :=
  if shouldFail then
    { s with mutationError := some "Failed to update favorite" }
  else
    { s with pokemon := s.pokemon.map (fun p => { p with isFavorite := some v }) }

/-- One round-trip of the README nickname mutation, of the same shape. -/
def nicknameMutationReadme (s : React19PageState) (n : String)
    (shouldFail : Bool) : React19PageState :=
  if shouldFail then
    { s with mutationError := some "Failed to update nickname" }
  else
    { s with pokemon := s.pokemon.map (fun p => { p with nickname := some n }) }

/-- A README page state holding `samplePokemon` with no errors. -/
def sampleReadmePage : React19PageState :=
  { pokemon := some samplePokemon, queryError := none, mutationError := none }

/-! ## C1 — retry budget exhaustion -/

/-- C1, counterexample: with `retryCount = 3`, a chain whose first three
underlying attempts fail and whose fourth would succeed does NOT stop at
three failures as the claim states: the fourth attempt is executed (attempt
count 4), it succeeds, no terminal error is ever set and the record is
stored.  The guard `retry < retryCount` schedules a retry after each of the
first three failures. -/
theorem c1_counterexample :
    (fetchPokemonChain 3 initialFetchState 0
        [Except.error "Failed to fetch data", Except.error "Failed to fetch data",
         Except.error "Failed to fetch data", Except.ok 7]).1.error = none ∧
    (fetchPokemonChain 3 initialFetchState 0
        [Except.error "Failed to fetch data", Except.error "Failed to fetch data",
         Except.error "Failed to fetch data", Except.ok 7]).1.pokemon = some 7 ∧
    (fetchPokemonChain 3 initialFetchState 0
        [Except.error "Failed to fetch data", Except.error "Failed to fetch data",
         Except.error "Failed to fetch data", Except.ok 7]).2 = 4 := by
  decide

/-- With a stale closed-over count below 3, a chain of consecutive failures
of `fetchData` leaves the error field exactly as it was and consumes every
outcome: each failure schedules another retry of the same closure. -/
theorem fetchDataChain_error_frame (m : String) (n : Nat) (s : React19State) :
    (fetchDataChain 0 s (List.replicate n (Except.error m))).1.error = s.error ∧
    (fetchDataChain 0 s (List.replicate n (Except.error m))).2 = n := by
  induction n generalizing s with
  | zero => simp [fetchDataChain]
  | succ k ih =>
      have h1 : fetchData 0 s (Except.error m)
          = ({ s with retryCount := 1 }, true) := by
        simp [fetchData]
      simp only [List.replicate_succ, fetchDataChain, h1]
      exact ⟨(ih { s with retryCount := 1 }).1, by
        rw [(ih { s with retryCount := 1 }).2]⟩

/-- C1, amended: the retry budget behaves differently in the two cited
variants, and in neither is the terminal error set after three failures.
README `fetchPokemon` (explicit retry argument): the terminal error is set
after exactly FOUR consecutive failures — the initial attempt plus
`retryCount = 3` retries — a chain of four failures executes exactly four
attempts and no further retry is scheduled (later outcomes are never
consumed, and a failure at retry index 3 schedules nothing).
`src/app/react19/page.tsx` `fetchData` (stale closed-over `retryCount`,
which is 0 at the render from which a fresh chain starts): the `setError`
branch is never reached — a chain of any number of consecutive failures sets
no error and schedules a retry after every failure. -/
theorem c1_terminal_after_four_failures (m : String)
    (rest : List (Except String Nat)) (n : Nat) :
    (fetchPokemonChain 3 initialFetchState 0
        (List.replicate 4 (Except.error m) ++ rest)).1.error = some m ∧
    (fetchPokemonChain 3 initialFetchState 0
        (List.replicate 4 (Except.error m) ++ rest)).2 = 4 ∧
    (∀ s : FetchState, (fetchPokemon 3 s 3 (Except.error m)).2 = none) ∧
    (fetchDataChain 0 initialReact19State
        (List.replicate n (Except.error m))).1.error = none ∧
    (fetchDataChain 0 initialReact19State
        (List.replicate n (Except.error m))).2 = n := by
  refine ⟨?_, ?_, ?_, ?_, ?_⟩
  · simp [List.replicate, fetchPokemonChain, fetchPokemon, initialFetchState]
  · simp [List.replicate, fetchPokemonChain, fetchPokemon, initialFetchState]
  · intro s
    simp [fetchPokemon]
  · exact (fetchDataChain_error_frame m n initialReact19State).1
  · exact (fetchDataChain_error_frame m n initialReact19State).2

/-! ## C2 — transient failures schedule one retry and stay invisible -/

/-- C2: every failing attempt with retry index below `retryCount = 3`
schedules exactly one retry of the fetch after the fixed 1000ms delay, and
leaves the user-visible error field exactly as it was (transient failures
are absorbed until terminal). -/
theorem c2_transient_schedules_retry (s : FetchState) (retry : Nat) (m : String)
    (h : retry < 3) :
    (fetchPokemon 3 s retry (Except.error m)).2 = some (retry + 1, 1000) ∧
    (fetchPokemon 3 s retry (Except.error m)).1.error = s.error := by
  simp [fetchPokemon, h]

/-- C2, witness: the first attempt (retry index 0) failing in the initial
state schedules one retry at 1000ms and keeps the error field at `none`. -/
theorem c2_witness :
    0 < 3 ∧
    (fetchPokemon 3 initialFetchState 0 (Except.error "Failed to fetch data")).2
        = some (1, 1000) ∧
    (fetchPokemon 3 initialFetchState 0 (Except.error "Failed to fetch data")).1.error
        = initialFetchState.error := by
  refine ⟨by decide, ?_⟩
  exact c2_transient_schedules_retry initialFetchState 0 "Failed to fetch data"
    (by decide)

/-! ## C4 — fresh cache hit never invokes the loader -/

/-- C4: a `fetchWithCache` call within `STALE_TIME` of the entry's
`timestamp` returns the cached value directly, does not invoke the loader
(whatever the loader would have produced), and leaves the cache state
unchanged. -/
theorem c4_fresh_hit (s : CacheState) (now ts : Int) (k : String) (v : Nat)
    (res : Except String Nat)
    (hent : lookupEntry s k = some (v, ts)) (hfresh : now - ts < STALE_TIME) :
    fetchWithCache s now k res = (Except.ok v, false, s) := by
  simp [fetchWithCache, hent, hfresh]

/-- C4, witness: reading `"pokemon-1"` at time 500 from a cache whose entry
was fetched at time 0 returns the cached value 5 with no loader call, even
though the loader would have failed. -/
theorem c4_witness :
    lookupEntry sampleCache "pokemon-1" = some (5, 0) ∧
    (500 : Int) - 0 < STALE_TIME ∧
    fetchWithCache sampleCache 500 "pokemon-1" (Except.error "boom")
        = (Except.ok 5, false, sampleCache) := by
  refine ⟨by decide, by decide, ?_⟩
  exact c4_fresh_hit sampleCache 500 0 "pokemon-1" 5 (Except.error "boom")
    (by decide) (by decide)

/-! ## C7 — loader failure propagates and leaves the cache unchanged -/

/-- C7: when no fresh entry exists (so the loader actually runs) and the
loader fails, `fetchWithCache` propagates that same error to the caller and
returns with the cache state — entries and timers — exactly unchanged:
nothing is stored or replaced on the failure path. -/
theorem c7_loader_failure_no_write (s : CacheState) (now : Int) (k : String)
    (msg : String) (hst : isFresh s k now = false) :
    fetchWithCache s now k (Except.error msg) = (Except.error msg, true, s) := by
  unfold isFresh at hst
  unfold fetchWithCache
  cases h : lookupEntry s k with
  | none => simp
  | some vt =>
      obtain ⟨v, ts⟩ := vt
      rw [h] at hst
      simp only [decide_eq_false_iff_not] at hst
      simp [hst]

/-- C7, witness: a miss on the empty cache with a failing loader returns the
loader's error and the empty cache unchanged. -/
theorem c7_witness :
    isFresh emptyCache "pokemon-1" 0 = false ∧
    fetchWithCache emptyCache 0 "pokemon-1" (Except.error "Failed to fetch data")
        = (Except.error "Failed to fetch data", true, emptyCache) := by
  refine ⟨by decide, ?_⟩
  exact c7_loader_failure_no_write emptyCache 0 "pokemon-1" "Failed to fetch data"
    (by decide)

/-! ## C3 — rollback restores the pre-mutation record -/

/-- C3, counterexample: a `favoriteMutation.mutate` issued while no record is
cached (queryData `none`) and forced to fail does NOT leave the visible
record equal to the record immediately prior to the call: the optimistic
partial object survives because `onError` guards the restore on
`context?.previousPokemon`, which is `undefined`. -/
theorem c3_counterexample :
    ¬ ((favoriteMutation
          { queryData := none, queryError := none, alerts := [] } true true).queryData
        = ({ queryData := none, queryError := none, alerts := [] } :
            ClientState).queryData) := by
  decide

/-- C3, amended: for every mutation call made while a record IS cached and
whose request fails, the visible record after rollback equals the record
immediately prior to calling `mutate` — the `MutationContext` snapshot is
restored, for both the favorite and the nickname mutation. -/
theorem c3_rollback_restores_snapshot (s : ClientState) (p : PokemonObj)
    (v : Bool) (n : String) (hp : s.queryData = some p) :
    (favoriteMutation s v true).queryData = some p ∧
    (nicknameMutation s n true).queryData = some p := by
  simp [favoriteMutation, nicknameMutation, setQueryData, hp]

/-- C3, witness: with `samplePokemon` cached, a failed favorite toggle and a
failed nickname change both leave `samplePokemon` visible. -/
theorem c3_witness :
    sampleClient.queryData = some samplePokemon ∧
    (favoriteMutation sampleClient true true).queryData = some samplePokemon ∧
    (nicknameMutation sampleClient "sparky" true).queryData = some samplePokemon := by
  refine ⟨by decide, ?_⟩
  exact c3_rollback_restores_snapshot sampleClient samplePokemon true "sparky"
    (by decide)

/-! ## C8 — mutation errors never touch the query error state -/

/-- C8, counterexample: the conjunct "the prior Record state is restored"
fails for a mutation issued while no record is cached: a failing
`nicknameMutation.mutate` leaves the optimistic partial object in place
(restoring with `setQueryData(key, undefined)` is a no-op), so the visible
data differs from the prior state. -/
theorem c8_counterexample :
    ¬ ((nicknameMutation
          { queryData := none, queryError := none, alerts := [] } "nick" true).queryData
        = ({ queryData := none, queryError := none, alerts := [] } :
            ClientState).queryData) := by
  decide

/-- C8, amended: the mutation error never reaches a query error field in any
cited variant, but how it is reported and what restores the record differ.
React-query page, failing mutation while a record is cached: the query's
user-visible error field is unchanged, the failure is reported independently
as exactly one one-shot alert, and the prior record is restored.  README
`usePokemonMutation`, failing mutation in any state: the query's error field
is unchanged and the base record is never modified (so the optimistic view
reverts to the prior record when the transition settles), but no alert or
notice is issued — the error is only stored in the mutation hook's own error
state, separate from the query's. -/
theorem c8_mutation_error_independent (s : ClientState) (p : PokemonObj)
    (v : Bool) (n : String) (r : React19PageState)
    (hp : s.queryData = some p) :
    (favoriteMutation s v true).queryError = s.queryError ∧
    (nicknameMutation s n true).queryError = s.queryError ∧
    (favoriteMutation s v true).alerts = s.alerts ++ ["즐겨찾기 처리에 실패했습니다!"] ∧
    (nicknameMutation s n true).alerts = s.alerts ++ ["닉네임 설정에 실패했습니다!"] ∧
    (favoriteMutation s v true).queryData = some p ∧
    (nicknameMutation s n true).queryData = some p ∧
    (favoriteMutationReadme r v true).queryError = r.queryError ∧
    (favoriteMutationReadme r v true).pokemon = r.pokemon ∧
    (favoriteMutationReadme r v true).mutationError
        = some "Failed to update favorite" ∧
    (nicknameMutationReadme r n true).queryError = r.queryError ∧
    (nicknameMutationReadme r n true).pokemon = r.pokemon ∧
    (nicknameMutationReadme r n true).mutationError
        = some "Failed to update nickname" := by
  simp [favoriteMutation, nicknameMutation, setQueryData, hp,
    favoriteMutationReadme, nicknameMutationReadme]

/-- C8, witness: with `samplePokemon` cached and no errors anywhere, failing
mutations of the react-query page leave the query error at `none`, append
exactly their alert and restore the record; failing mutations of the README
hook leave both the query error and the base record untouched and store the
message only in the hook's own error state. -/
theorem c8_witness :
    sampleClient.queryData = some samplePokemon ∧
    (favoriteMutation sampleClient true true).queryError = sampleClient.queryError ∧
    (nicknameMutation sampleClient "sparky" true).queryError = sampleClient.queryError ∧
    (favoriteMutation sampleClient true true).alerts
        = sampleClient.alerts ++ ["즐겨찾기 처리에 실패했습니다!"] ∧
    (nicknameMutation sampleClient "sparky" true).alerts
        = sampleClient.alerts ++ ["닉네임 설정에 실패했습니다!"] ∧
    (favoriteMutation sampleClient true true).queryData = some samplePokemon ∧
    (nicknameMutation sampleClient "sparky" true).queryData = some samplePokemon ∧
    (favoriteMutationReadme sampleReadmePage true true).queryError
        = sampleReadmePage.queryError ∧
    (favoriteMutationReadme sampleReadmePage true true).pokemon
        = sampleReadmePage.pokemon ∧
    (favoriteMutationReadme sampleReadmePage true true).mutationError
        = some "Failed to update favorite" ∧
    (nicknameMutationReadme sampleReadmePage "sparky" true).queryError
        = sampleReadmePage.queryError ∧
    (nicknameMutationReadme sampleReadmePage "sparky" true).pokemon
        = sampleReadmePage.pokemon ∧
    (nicknameMutationReadme sampleReadmePage "sparky" true).mutationError
        = some "Failed to update nickname" := by
  refine ⟨by decide, ?_⟩
  exact c8_mutation_error_independent sampleClient samplePokemon true "sparky"
    sampleReadmePage (by decide)

/-! ## C10 — unguarded optimistic write with empty cache -/

/-- C10: a `favoriteMutation.mutate` issued while no record is cached writes
the partial object whose only present field is the patched `isFavorite`, and
on failure no rollback occurs — the guard `if (context?.previousPokemon)`
sees `undefined` — so exactly that partial object remains visible. -/
theorem c10_partial_record_survives (v : Bool) (e : Option String)
    (a : List String) :
    (favoriteMutation { queryData := none, queryError := e, alerts := a }
        v true).queryData
      = some { emptyPokemonObj with isFavorite := some v } := by
  simp [favoriteMutation, spreadWithFavorite]

/-! ## C5 — stopping the poll drivers -/

/-- C5, counterexample: the claim quantifies over every poll driver, but the
`ReactBefore19Page` polling effect calls `fetchData()` synchronously when
polling starts; starting at time 0 and stopping at time 1 — well within one
5000ms interval — yields one fetch invocation, not zero. -/
theorem c5_counterexample :
    ¬ ((pollFireTimesBefore19 0 5000 1).length = 0) := by
  decide

/-- C5, amended: `clearInterval` on stop guarantees every interval firing
happens strictly before the stop; a start/stop within less than one interval
yields zero invocations for the interval-only drivers (`React19Page` and
`src/app/react19/page.tsx`), while the `ReactBefore19Page` driver performs
exactly the one immediate invocation made at start time. -/
theorem c5_stop_cancels_interval (t0 tStop : Nat) (h : tStop < t0 + 5000) :
    (∀ s i e : Nat, ∀ t ∈ pollFireTimes s i e, t < e) ∧
    pollFireTimes t0 5000 tStop = [] ∧
    pollFireTimesBefore19 t0 5000 tStop = [t0] := by
  have hnil : pollFireTimes t0 5000 tStop = [] := by
    unfold pollFireTimes
    rw [List.map_eq_nil_iff, List.filter_eq_nil_iff]
    intro k _
    simp only [decide_eq_true_eq, not_and, not_lt]
    intro hk
    omega
  refine ⟨?_, hnil, ?_⟩
  · intro s i e t ht
    unfold pollFireTimes at ht
    rw [List.mem_map] at ht
    obtain ⟨k, hk, rfl⟩ := ht
    rw [List.mem_filter] at hk
    have := hk.2
    simp only [decide_eq_true_eq] at this
    exact this.2
  · unfold pollFireTimesBefore19
    rw [hnil]

/-- C5, witness: a start at time 0 stopped at time 4999 fires the
interval-only drivers zero times and the `ReactBefore19Page` driver exactly
once, at time 0. -/
theorem c5_witness :
    4999 < 0 + 5000 ∧
    pollFireTimes 0 5000 4999 = [] ∧
    pollFireTimesBefore19 0 5000 4999 = [0] := by
  refine ⟨by decide, ?_⟩
  exact (c5_stop_cancels_interval 0 4999 (by decide)).2

/-! ## Helper lemmas about cache lookups under events -/

/-- Filtering the entries on `key != k` makes `k` absent. -/
theorem lookupEntry_entries_filter_self (l : List (String × Nat × Int))
    (ts : List (Int × String)) (k : String) :
    lookupEntry { entries := l.filter (fun en => en.1 != k), timers := ts } k
      = none := by
  simp only [lookupEntry, Option.map_eq_none', List.find?_eq_none, List.mem_filter]
  intro x hx
  have hxk : x.1 ≠ k := by
    have := hx.2
    simpa [bne_iff_ne] using this
  simp [hxk]

/-- A key absent from a list of entries stays absent after any filter. -/
theorem find?_key_filter_none (l : List (String × Nat × Int))
    (p : String × Nat × Int → Bool) (k : String)
    (h : l.find? (fun e => e.1 == k) = none) :
    (l.filter p).find? (fun e => e.1 == k) = none := by
  rw [List.find?_eq_none] at h ⊢
  intro x hx
  exact h x (List.mem_filter.mp hx).1

/-- Storing under a different key keeps `k` absent. -/
theorem lookupEntry_cacheStore_ne (s : CacheState) (k2 k : String) (d : Nat)
    (now : Int) (hk : (k2 == k) = false) (h : lookupEntry s k = none) :
    lookupEntry (cacheStore s k2 d now) k = none := by
  simp only [lookupEntry, Option.map_eq_none'] at h ⊢
  unfold cacheStore
  rw [List.find?_cons_of_neg _ (by simp [hk])]
  exact find?_key_filter_none _ _ _ h

/-- When no fresh entry for `k` exists, a successful `fetchWithCache` stores
the loaded value (and schedules the GC timer): the resulting state is
`cacheStore`. -/
theorem fetchWithCache_miss_store (s : CacheState) (now : Int) (k : String)
    (v : Nat) (hmiss : isFresh s k now = false) :
    (fetchWithCache s now k (Except.ok v)).2.2 = cacheStore s k v now := by
  unfold isFresh at hmiss
  unfold fetchWithCache
  cases hl : lookupEntry s k with
  | none => simp
  | some vt =>
      obtain ⟨w, ts⟩ := vt
      rw [hl] at hmiss
      simp only [decide_eq_false_iff_not] at hmiss
      simp [hmiss]

/-- A key absent from the cache stays absent across any event that is not a
`fetchWithCache` call for that key. -/
theorem lookupEntry_stepEv_none (s : CacheState) (e : TimedEv) (k : String)
    (h : lookupEntry s k = none) (hne : isGetOf k e = false) :
    lookupEntry (stepEv s e) k = none := by
  obtain ⟨t, ev⟩ := e
  cases ev with
  | gcFire k2 =>
      unfold stepEv
      by_cases hm : (t, k2) ∈ s.timers
      · simp only [hm, if_true]
        simp only [lookupEntry, Option.map_eq_none'] at h ⊢
        exact find?_key_filter_none _ _ _ h
      · simpa [hm] using h
  | get k2 res =>
      have hk : (k2 == k) = false := by
        simpa [isGetOf] using hne
      show lookupEntry (fetchWithCache s t k2 res).2.2 k = none
      unfold fetchWithCache
      cases hl : lookupEntry s k2 with
      | none =>
          cases res with
          | ok d =>
              simpa using lookupEntry_cacheStore_ne s k2 k d t hk h
          | error m => simpa using h
      | some vt =>
          obtain ⟨w, ts⟩ := vt
          by_cases hf : t - ts < STALE_TIME
          · simpa [hf] using h
          · cases res with
            | ok d =>
                simpa [hf] using lookupEntry_cacheStore_ne s k2 k d t hk h
            | error m => simpa [hf] using h

/-- A key absent from the cache stays absent across any run of events none
of which is a `fetchWithCache` call for that key. -/
theorem lookupEntry_runEvents_none (s : CacheState) (k : String)
    (post : List TimedEv) (h : lookupEntry s k = none)
    (hpost : ∀ e ∈ post, isGetOf k e = false) :
    lookupEntry (runEvents s post) k = none := by
  induction post generalizing s with
  | nil => exact h
  | cons e rest ih =>
      exact ih (stepEv s e)
        (lookupEntry_stepEv_none s e k h (hpost e (List.mem_cons_self e rest)))
        (fun e2 he2 => hpost e2 (List.mem_cons_of_mem e he2))

/-! ## C6 — unconditional GC eviction -/

/-- C6: an entry created by a successful `fetchWithCache` at time `t0` (from
a state with no fresh entry for its key) is absent once the GC timer
scheduled at creation fires at `t0 + GC_TIME` — exactly `GC_TIME` after the
entry's creation — and stays absent through any further events that never
read the key again.  The deletion needs no reads: the `setTimeout` callback
deletes the key unconditionally. -/
theorem c6_gc_removes_entry (s : CacheState) (t0 : Int) (k : String) (v : Nat)
    (post : List TimedEv) (hmiss : isFresh s k t0 = false)
    (hpost : ∀ e ∈ post, isGetOf k e = false) :
    lookupEntry (runEvents s
        (⟨t0, CacheEv.get k (Except.ok v)⟩ ::
         ⟨t0 + GC_TIME, CacheEv.gcFire k⟩ :: post)) k = none := by
  have h1 : stepEv s ⟨t0, CacheEv.get k (Except.ok v)⟩ = cacheStore s k v t0 :=
    fetchWithCache_miss_store s t0 k v hmiss
  have hmem : (t0 + GC_TIME, k) ∈ (cacheStore s k v t0).timers :=
    List.mem_cons_self _ _
  have h2 : lookupEntry
      (stepEv (cacheStore s k v t0) ⟨t0 + GC_TIME, CacheEv.gcFire k⟩) k = none := by
    unfold stepEv
    simp only [hmem, if_true]
    exact lookupEntry_entries_filter_self _ _ k
  show lookupEntry
      (runEvents (stepEv (stepEv s ⟨t0, CacheEv.get k (Except.ok v)⟩)
        ⟨t0 + GC_TIME, CacheEv.gcFire k⟩) post) k = none
  rw [h1]
  exact lookupEntry_runEvents_none _ k post h2 hpost

/-- C6, witness: a value cached for `"pokemon-1"` at time 0 into the empty
cache is gone at its GC firing time 300000, and remains gone across a later
read of a different key. -/
theorem c6_witness :
    isFresh emptyCache "pokemon-1" 0 = false ∧
    (∀ e ∈ [(⟨400000, CacheEv.get "pokemon-2" (Except.ok 7)⟩ : TimedEv)],
        isGetOf "pokemon-1" e = false) ∧
    lookupEntry (runEvents emptyCache
        [⟨0, CacheEv.get "pokemon-1" (Except.ok 5)⟩,
         ⟨0 + GC_TIME, CacheEv.gcFire "pokemon-1"⟩,
         ⟨400000, CacheEv.get "pokemon-2" (Except.ok 7)⟩]) "pokemon-1" = none := by
  refine ⟨by decide, by decide, ?_⟩
  exact c6_gc_removes_entry emptyCache 0 "pokemon-1" 5
    [⟨400000, CacheEv.get "pokemon-2" (Except.ok 7)⟩] (by decide) (by decide)

/-! ## C9 — a stale-refresh write inherits the older GC timer -/

/-- C9: when a stale entry for `k` (first written at `t0`) is replaced at
`t1`, the GC timer scheduled by the earlier write is still pending after the
replacement (nothing cancels it); when it fires at `t0 + GC_TIME` it deletes
whatever is stored under `k` — here the replacement entry — which is thereby
evicted strictly earlier than `GC_TIME` after its own creation at `t1`. -/
theorem c9_replacement_evicted_early (k : String) (v1 v2 : Nat) (t0 t1 : Int)
    (hstale : STALE_TIME ≤ t1 - t0) (horder : t1 < t0 + GC_TIME) :
    ((t0 + GC_TIME, k) ∈
        (runEvents emptyCache
          [⟨t0, CacheEv.get k (Except.ok v1)⟩,
           ⟨t1, CacheEv.get k (Except.ok v2)⟩]).timers) ∧
    lookupEntry (runEvents emptyCache
          [⟨t0, CacheEv.get k (Except.ok v1)⟩,
           ⟨t1, CacheEv.get k (Except.ok v2)⟩,
           ⟨t0 + GC_TIME, CacheEv.gcFire k⟩]) k = none ∧
    (t0 + GC_TIME) - t1 < GC_TIME := by
  have hfresh2 : ¬ (t1 - t0 < STALE_TIME) := not_lt.mpr hstale
  have h2 : runEvents emptyCache
      [⟨t0, CacheEv.get k (Except.ok v1)⟩, ⟨t1, CacheEv.get k (Except.ok v2)⟩]
      = { entries := [(k, v2, t1)]
          timers := [(t1 + GC_TIME, k), (t0 + GC_TIME, k)] } := by
    simp [runEvents, stepEv, fetchWithCache, cacheStore, lookupEntry, emptyCache,
      hfresh2]
  refine ⟨?_, ?_, ?_⟩
  · rw [h2]
    simp
  · show lookupEntry (runEvents (runEvents emptyCache
        [⟨t0, CacheEv.get k (Except.ok v1)⟩, ⟨t1, CacheEv.get k (Except.ok v2)⟩])
        [⟨t0 + GC_TIME, CacheEv.gcFire k⟩]) k = none
    rw [h2]
    have hmem : ((t0 + GC_TIME, k) : Int × String)
        ∈ [(t1 + GC_TIME, k), (t0 + GC_TIME, k)] := by simp
    unfold runEvents stepEv
    simp only [hmem, if_true]
    exact lookupEntry_entries_filter_self _ _ k
  · have hs : STALE_TIME = (10000 : Int) := rfl
    have hg : GC_TIME = (300000 : Int) := rfl
    rw [hs] at hstale
    rw [hg] at horder ⊢
    omega

/-- C9, witness: first write at time 0, stale replacement at time 10000; the
timer from the first write is still pending, fires at 300000 and evicts the
replacement only 290000 after its creation. -/
theorem c9_witness :
    STALE_TIME ≤ (10000 : Int) - 0 ∧
    (10000 : Int) < 0 + GC_TIME ∧
    (((0 : Int) + GC_TIME, "p") ∈
        (runEvents emptyCache
          [⟨0, CacheEv.get "p" (Except.ok 1)⟩,
           ⟨10000, CacheEv.get "p" (Except.ok 2)⟩]).timers) ∧
    lookupEntry (runEvents emptyCache
          [⟨0, CacheEv.get "p" (Except.ok 1)⟩,
           ⟨10000, CacheEv.get "p" (Except.ok 2)⟩,
           ⟨0 + GC_TIME, CacheEv.gcFire "p"⟩]) "p" = none ∧
    ((0 : Int) + GC_TIME) - 10000 < GC_TIME := by
  refine ⟨by decide, by decide, ?_⟩
  exact c9_replacement_evicted_early "p" 1 2 0 10000 (by decide) (by decide)

end React19Demo
